import Mathlib

/-!
Shallow embedding of the pipeline orchestration core of plaicube-py
(src/pipeline_manager.py, src/models.py, src/utils/validators.py,
src/main.py), together with theorems settling the specification claims.

Modelling conventions:
* Python dicts with string keys are `Dict` (association lists); values are
  `DVal` (a string or a nested dict), enough to carry the payloads the
  code inspects (`status`, `error`, `video_url`, custom inputs).
* Timestamps (`datetime.now()`) are opaque `Nat` instants supplied by the
  caller of each operation.
* Fresh uuids are supplied by the caller (they are opaque strings that no
  code path inspects).
* The external runway service call (`runway_service.process_video`) and
  the custom step body are the only suspension points; their behaviour is
  a parameter `beh : Nat → CallOutcome` giving, per step index, either the
  value the call returns (`Option Dict`, as in the Python source), an
  `Exception` it raises, or a `BaseException` interruption (asyncio task
  cancellation), which the `except Exception` handlers do not catch.
* A concurrent `cancel_pipeline` landing at a step boundary is modelled by
  `cancelAt : Option Nat`: just before the loop body for step index `i`
  runs, the pipeline status is set to Cancelled (what `cancel_pipeline`
  does to the shared record).
-/

/-- Values stored in the string-keyed maps the code passes around. -/
inductive DVal where
  | s (v : String)
  | d (v : List (String × DVal))

/-- Python `dict` with string keys, as an association list. -/
def Dict := List (String × DVal)

/-- Python `d.get(k)` returning `None` when absent (`dict.get`). -/
def Dict.get (d : Dict) (k : String) : Option DVal :=
  match d with
  | [] => none
  | (k2, v) :: rest => if k2 = k then some v else Dict.get rest k

/-- Python `d.get(k, dflt)` with a string default, as used for `result.get("error", ...)`. -/
def Dict.getS (d : Dict) (k : String) (dflt : String) : String :=
  match Dict.get d k with
  | some (DVal.s v) => v
  | _ => dflt

/-- Python truthiness of an `Optional[Dict]`: `None` and `{}` are falsy. -/
def dictTruthy (r : Option Dict) : Bool :=
  match r with
  | none => false
  | some d => !d.isEmpty

/-- models.py StepType. -/
inductive StepType where
  | runway_video
  | ffmpeg_process
  | whisper_transcribe
  | gpt4_analysis
  | custom_process
deriving DecidableEq

/-- models.py StepStatus. -/
inductive StepStatus where
  | pending
  | processing
  | completed
  | failed
  | skipped
deriving DecidableEq

/-- models.py PipelineStatus. -/
inductive PipelineStatus where
  | pending
  | processing
  | completed
  | failed
  | cancelled
deriving DecidableEq

/-- models.py PipelineStep. -/
structure PipelineStep where
  stepId : String
  stepType : StepType
  status : StepStatus
  order : Nat
  input : Dict
  output : Option Dict
  error : Option String
  startedAt : Option Nat
  completedAt : Option Nat
  progress : Nat

/-- models.py Pipeline. -/
structure Pipeline where
  pipelineId : String
  videoId : String
  videoUrl : String
  prompt : String
  status : PipelineStatus
  steps : List PipelineStep
  createdAt : Nat
  updatedAt : Option Nat
  completedAt : Option Nat
  totalSteps : Nat
  completedSteps : Nat

/-- models.py PipelineConfig (with its field defaults). -/
structure PipelineConfig where
  enableRunwayVideo : Bool := true
  enableFfmpeg : Bool := false
  enableWhisper : Bool := false
  enableGpt4 : Bool := false
  customSteps : List Dict := []

/-- A freshly created step, as every branch of `_create_steps` builds it
(status Pending, no output/error/timestamps, progress 0). -/
def newStep (sid : String) (t : StepType) (ord : Nat) (inp : Dict) : PipelineStep :=
  { stepId := sid, stepType := t, status := StepStatus.pending, order := ord,
    input := inp, output := none, error := none,
    startedAt := none, completedAt := none, progress := 0 }

/-- The custom-steps loop at the end of `_create_steps`: one custom step per
entry of `config.customSteps`, input taken verbatim, order counter threaded. -/
def customStepsFrom (ids : Nat → String) (ord : Nat) : List Dict → List PipelineStep
  | [] => []
  | inp :: rest =>
      newStep (ids ord) StepType.custom_process ord inp ::
        customStepsFrom ids (ord + 1) rest

/-- pipeline_manager.py `_create_steps`: fixed precedence order
runway / ffmpeg / whisper / gpt4, then the custom steps; `order` is a
counter incremented once per appended step.  `ids` supplies the fresh
step uuids (by position). -/
def create_steps (ids : Nat → String) (config : PipelineConfig) : List PipelineStep :=
  let l1 : List PipelineStep :=
    if config.enableRunwayVideo then
      [newStep (ids 0) StepType.runway_video 0 []] else []
  let o1 := l1.length
  let l2 : List PipelineStep :=
    if config.enableFfmpeg then
      l1 ++ [newStep (ids o1) StepType.ffmpeg_process o1 []] else l1
  let o2 := l2.length
  let l3 : List PipelineStep :=
    if config.enableWhisper then
      l2 ++ [newStep (ids o2) StepType.whisper_transcribe o2 []] else l2
  let o3 := l3.length
  let l4 : List PipelineStep :=
    if config.enableGpt4 then
      l3 ++ [newStep (ids o3) StepType.gpt4_analysis o3 []] else l3
  l4 ++ customStepsFrom ids l4.length config.customSteps

/-- The config `create_pipeline` starts from: the caller's, or the model
defaults (`if config is None: config = PipelineConfig()`). -/
def baseConfig (config0 : Option PipelineConfig) : PipelineConfig :=
  match config0 with
  | none => {}
  | some c => c

/-- The three assignments at the top of `create_pipeline`: the
ffmpeg/whisper/gpt4 flags are forced off before the steps are built. -/
def forcedConfig (c : PipelineConfig) : PipelineConfig :=
  { c with enableFfmpeg := false, enableWhisper := false, enableGpt4 := false }

/-- pipeline_manager.py `create_pipeline`: defaults the config, forces the
ffmpeg/whisper/gpt4 flags off ("Şimdilik sadece Runway aktif"), builds the
steps, and returns the Pending pipeline with `totalSteps = len(steps)`,
`completedSteps = 0`.  `pid` is the fresh pipeline uuid, `now` the creation
instant. -/
def create_pipeline (pid : String) (ids : Nat → String)
    (video_id video_url prompt : String)
    (config0 : Option PipelineConfig) (now : Nat) : Pipeline :=
  let c0 := baseConfig config0
  let config := forcedConfig c0
  let steps := create_steps ids config
  { pipelineId := pid, videoId := video_id, videoUrl := video_url,
    prompt := prompt, status := PipelineStatus.pending, steps := steps,
    createdAt := now, updatedAt := none, completedAt := none,
    totalSteps := steps.length, completedSteps := 0 }

/-- The manager's mutable state: `self.pipelines` (keyed container) and the
keys of `self.running_pipelines` (the tracked task handles). -/
structure ManagerState where
  pipelines : List (String × Pipeline)
  running : List String

/-- Python `self.pipelines.get(pipeline_id)` / `pipeline_id in self.pipelines`. -/
def lookupPipeline (ps : List (String × Pipeline)) (pid : String) : Option Pipeline :=
  match ps with
  | [] => none
  | (k, p) :: rest => if k = pid then some p else lookupPipeline rest pid

/-- In-place mutation of the record stored under `pid`. -/
def updatePipeline (ps : List (String × Pipeline)) (pid : String) (p : Pipeline) :
    List (String × Pipeline) :=
  match ps with
  | [] => []
  | (k, q) :: rest =>
      if k = pid then (k, p) :: rest else (k, q) :: updatePipeline rest pid p

/-- Python `self.pipelines[pipeline_id] = pipeline` for a fresh id. -/
def insertPipeline (st : ManagerState) (p : Pipeline) : ManagerState :=
  { st with pipelines := st.pipelines ++ [(p.pipelineId, p)] }

/-- pipeline_manager.py `start_pipeline`: raises PipelineException when the
id is unknown; otherwise unconditionally sets status Processing, stamps
`updatedAt`, and registers the spawned execution task.  (The source checks
only existence — it never inspects the current status.) -/
def start_pipeline (st : ManagerState) (pid : String) (now : Nat) :
    Except String ManagerState :=
  match lookupPipeline st.pipelines pid with
  | none => Except.error ("Pipeline " ++ pid ++ " not found")
  | some p =>
      let p2 := { p with status := PipelineStatus.processing, updatedAt := some now }
      Except.ok { pipelines := updatePipeline st.pipelines pid p2,
                  running := pid :: st.running }

/-- pipeline_manager.py `cancel_pipeline`: returns false when the id is
unknown; otherwise unconditionally sets status Cancelled (whatever the
current status), stamps `updatedAt`, cancels and drops any tracked task,
and returns true. -/
def cancel_pipeline (st : ManagerState) (pid : String) (now : Nat) :
    Bool × ManagerState :=
  match lookupPipeline st.pipelines pid with
  | none => (false, st)
  | some p =>
      let p2 := { p with status := PipelineStatus.cancelled, updatedAt := some now }
      (true, { pipelines := updatePipeline st.pipelines pid p2,
               running := st.running.filter (fun q => q ≠ pid) })

/-- Outcome of the one awaited external call inside a step (the runway
`process_video` call, or the custom step's sleep): the value it returns,
an `Exception` it raises, or an asyncio cancellation (`BaseException`,
invisible to the `except Exception` handlers). -/
inductive CallOutcome where
  | returns (r : Option Dict)
  | raises (msg : String)
  | interrupted

/-- What propagates out of a block: nothing, an `Exception` with its
message, or a `BaseException` (task cancellation). -/
inductive ExcKind where
  | none
  | exc (msg : String)
  | baseExc

/-- Test `result and result.get("status") == "success"` from `_execute_runway_step`. -/
def isSuccessResult (r : Option Dict) : Bool :=
  dictTruthy r &&
    (match r with
     | some d =>
         (match Dict.get d "status" with
          | some (DVal.s v) => v = "success"
          | _ => false)
     | none => false)

/-- pipeline_manager.py `_execute_runway_step`, resumed after the service
call returned `r`: on success store the whole result as output; otherwise
mark the step Failed with the reported error and raise ServiceException. -/
def execute_runway_body (step : PipelineStep) (r : Option Dict) :
    PipelineStep × ExcKind :=
  if isSuccessResult r then
    ({ step with output := r }, ExcKind.none)
  else
    let err := match r with
      | none => "No result"
      | some d => if d.isEmpty then "No result" else Dict.getS d "error" "Unknown error"
    ({ step with status := StepStatus.failed, error := some err },
     ExcKind.exc ("Runway service failed: " ++ err))

/-- The output dict built by `_execute_custom_step`. -/
def custom_output (inp : Dict) : Dict :=
  [("custom_result", DVal.s "Custom processing result..."),
   ("step_data", DVal.d inp),
   ("status", DVal.s "success")]

/-- The placeholder executors for the disabled services: status Skipped,
reason recorded in the error field, nothing raised, progress untouched. -/
def placeholder_skip (step : PipelineStep) (name : String) :
    PipelineStep × ExcKind :=
  ({ step with status := StepStatus.skipped
               error := some (name ++ " service is currently disabled") },
   ExcKind.none)

/-- The `if/elif` dispatch chain inside `_execute_step`.  The runway and
custom branches suspend at their external call, so an interruption or a
raised exception there reaches the step before any of that branch's
mutations; the placeholder branches never suspend or raise. -/
def dispatch_step (t : StepType) (step : PipelineStep) (out : CallOutcome) :
    PipelineStep × ExcKind :=
  match t with
  | StepType.runway_video =>
      (match out with
       | CallOutcome.returns r => execute_runway_body step r
       | CallOutcome.raises msg => (step, ExcKind.exc msg)
       | CallOutcome.interrupted => (step, ExcKind.baseExc))
  | StepType.ffmpeg_process => placeholder_skip step "FFmpeg"
  | StepType.whisper_transcribe => placeholder_skip step "Whisper"
  | StepType.gpt4_analysis => placeholder_skip step "GPT4"
  | StepType.custom_process =>
      (match out with
       | CallOutcome.returns _ =>
           ({ step with output := some (custom_output step.input) }, ExcKind.none)
       | CallOutcome.raises msg => (step, ExcKind.exc msg)
       | CallOutcome.interrupted => (step, ExcKind.baseExc))

/-- pipeline_manager.py `_execute_step`: mark the step Processing with
`startedAt = now`, `progress = 10`; dispatch; `except Exception`: mark the
step Failed with the exception message, `progress = 0`, and re-raise a
ServiceException; `finally`: stamp `completedAt` and promote a step still
Processing to Completed with `progress = 100`.  A `BaseException` is not
caught by the handler but still passes through the `finally` block. -/
def execute_step (step : PipelineStep) (out : CallOutcome) (now : Nat) :
    PipelineStep × ExcKind :=
  let step1 := { step with status := StepStatus.processing
                           startedAt := some now
                           progress := 10 }
  let r := dispatch_step step.stepType step1 out
  let r2 : PipelineStep × ExcKind :=
    match r.2 with
    | ExcKind.exc msg =>
        ({ r.1 with status := StepStatus.failed, error := some msg, progress := 0 },
         ExcKind.exc ("Step " ++ step.stepId ++ " failed: " ++ msg))
    | e => (r.1, e)
  let step3 := { r2.1 with completedAt := some now }
  let step4 := if step3.status = StepStatus.processing then
      { step3 with status := StepStatus.completed, progress := 100 } else step3
  (step4, r2.2)

/-- Result of the step loop of `_execute_pipeline`: the updated step list,
the pipeline status and completed-step count as left by the loop, and what
(if anything) escaped the loop. -/
structure LoopOut where
  steps : List PipelineStep
  status : PipelineStatus
  comp : Nat
  exc : ExcKind

/-- The `for step in pipeline.steps` loop of `_execute_pipeline`: check for
Cancelled at the boundary (a concurrent `cancel_pipeline` landing at
boundary `i` is the `cancelAt = some i` event), run the step, break on a
Failed step after setting the pipeline Failed, count Completed steps, and
abort the loop when an exception escapes `_execute_step`. -/
def runSteps (beh : Nat → CallOutcome) (cancelAt : Option Nat) (now : Nat) :
    Nat → PipelineStatus → Nat → List PipelineStep → LoopOut
  | _, st, comp, [] => { steps := [], status := st, comp := comp, exc := ExcKind.none }
  | i, st, comp, step :: rest =>
      let st1 := if cancelAt = some i then PipelineStatus.cancelled else st
      if st1 = PipelineStatus.cancelled then
        { steps := step :: rest, status := st1, comp := comp, exc := ExcKind.none }
      else
        let r := execute_step step (beh i) now
        match r.2 with
        | ExcKind.none =>
            if r.1.status = StepStatus.failed then
              { steps := r.1 :: rest, status := PipelineStatus.failed,
                comp := comp, exc := ExcKind.none }
            else
              let comp2 := if r.1.status = StepStatus.completed then comp + 1 else comp
              let o := runSteps beh cancelAt now (i + 1) st1 comp2 rest
              { o with steps := r.1 :: o.steps }
        | e => { steps := r.1 :: rest, status := st1, comp := comp, exc := e }

/-- A pipeline record together with what escaped its execution task. -/
structure RunOut where
  pipeline : Pipeline
  exc : ExcKind

/-- pipeline_manager.py `_execute_pipeline`: run the loop; if nothing
escaped and the status is not Failed, set Completed and stamp
`completedAt` (note: without checking for Cancelled); `except Exception`:
set Failed and re-raise a PipelineException; a `BaseException` skips both
and leaves the record as the loop left it.  The `finally` block only
deregisters the task handle. -/
def execute_pipeline (beh : Nat → CallOutcome) (cancelAt : Option Nat)
    (pl : Pipeline) (now : Nat) : RunOut :=
  let o := runSteps beh cancelAt now 0 pl.status pl.completedSteps pl.steps
  let pl1 := { pl with steps := o.steps, status := o.status, completedSteps := o.comp }
  match o.exc with
  | ExcKind.none =>
      let pl2 := if pl1.status ≠ PipelineStatus.failed then
          { pl1 with status := PipelineStatus.completed, completedAt := some now }
        else pl1
      { pipeline := { pl2 with updatedAt := some now }, exc := ExcKind.none }
  | ExcKind.exc msg =>
      { pipeline := { pl1 with status := PipelineStatus.failed, updatedAt := some now },
        exc := ExcKind.exc ("Pipeline " ++ pl.pipelineId ++ " failed: " ++ msg) }
  | ExcKind.baseExc => { pipeline := pl1, exc := ExcKind.baseExc }

/-- Python whitespace for `str.strip()` (the ASCII whitespace characters). -/
def pyIsSpace (c : Char) : Bool :=
  c = ' ' || c = '\t' || c = '\n' || c = '\r' || c = '\x0B' || c = '\x0C'

/-- Python `not prompt or not prompt.strip()`: the prompt is empty or
whitespace-only (an empty string is vacuously all-whitespace). -/
def promptBlank (p : String) : Bool := p.toList.all pyIsSpace

/-- validators.py `validate_prompt`: rejects an empty/whitespace-only
prompt, then a prompt longer than 1000 characters. -/
def validate_prompt (prompt : String) : Except String Unit :=
  if promptBlank prompt then Except.error "Prompt cannot be empty"
  else if prompt.length > 1000 then Except.error "Prompt too long (max 1000 characters)"
  else Except.ok ()

/-- Python `s.startswith(pfx)` via character lists. -/
def strStartsWith (s pfx : String) : Bool :=
  pfx.toList.isPrefixOf s.toList

/-- validators.py `validate_video_url` (the extension check in the source
deliberately allows everything, so it is a no-op). -/
def validate_video_url (url : String) : Except String Unit :=
  if url = "" then Except.error "Video URL cannot be empty"
  else if !(strStartsWith url "http://" || strStartsWith url "https://") then
    Except.error "Video URL must be a valid HTTP/HTTPS URL"
  else Except.ok ()

/-- validators.py `validate_uuid`, with `uuid.UUID` parsing abstracted as
the predicate `uuidOk` (the code only branches on whether parsing raises). -/
def validate_uuid (uuidOk : String → Bool) (s : String) (field : String) :
    Except String Unit :=
  if uuidOk s then Except.ok ()
  else Except.error ("Invalid " ++ field ++ " format: " ++ s)

/-- The allowed pipeline-config keys of `validate_pipeline_config`. -/
def allowed_keys : List String :=
  ["enableRunwayVideo", "enableFfmpeg", "enableWhisper", "enableGpt4", "customSteps"]

/-- The first key of the raw config dict not in `allowed_keys`, if any. -/
def firstBadKey (keys : List String) : Option String :=
  match keys with
  | [] => none
  | k :: rest => if allowed_keys.contains k then firstBadKey rest else some k

/-- validators.py `validate_pipeline_config` on the raw dict's keys (the
`isinstance` guard always passes for a parsed JSON object). -/
def validate_pipeline_config (keys : List String) : Except String Unit :=
  match firstBadKey keys with
  | some k => Except.error ("Invalid pipeline config key: " ++ k)
  | none => Except.ok ()

/-- The raw `pipelineConfig` dict of a request: its key list, and the
`PipelineConfig(**dict)` value pydantic parses it into. -/
structure RawConfig where
  keys : List String
  parsed : PipelineConfig

/-- models.py VideoRequest (the `pipelineConfig` is the raw dict). -/
structure VideoRequest where
  videoId : String
  videoUrl : String
  prompt : String
  pipelineConfig : Option RawConfig

/-- models.py VideoResponse. -/
structure VideoResponse where
  videoId : String
  pipelineId : String
  status : PipelineStatus
  message : String
  totalSteps : Nat
  completedSteps : Nat
  createdAt : Nat
  updatedAt : Option Nat

/-- The enum value string, used only inside response messages. -/
def statusStr : PipelineStatus → String
  | PipelineStatus.pending => "pending"
  | PipelineStatus.processing => "processing"
  | PipelineStatus.completed => "completed"
  | PipelineStatus.failed => "failed"
  | PipelineStatus.cancelled => "cancelled"

/-- main.py `transform_video` endpoint: validate the videoId, the url, the
prompt, then (when the raw config dict is truthy) its keys; return the
existing pipeline for the video id if there is one; otherwise parse the
config, create the pipeline, insert it, and schedule `start_pipeline` as a
background task (that task runs after the response and is modelled
separately).  A ValidationException becomes an HTTP 400 error.  The result
pairs the HTTP outcome with the manager state after the call. -/
def transform_video (uuidOk : String → Bool) (req : VideoRequest)
    (st : ManagerState) (pid : String) (ids : Nat → String) (now : Nat) :
    Except (Nat × String) VideoResponse × ManagerState :=
  match validate_uuid uuidOk req.videoId "videoId" with
  | Except.error m => (Except.error (400, m), st)
  | Except.ok _ =>
  match validate_video_url req.videoUrl with
  | Except.error m => (Except.error (400, m), st)
  | Except.ok _ =>
  match validate_prompt req.prompt with
  | Except.error m => (Except.error (400, m), st)
  | Except.ok _ =>
  -- `if request.pipelineConfig:` — both None and an empty dict are falsy
  let cfgPresent := match req.pipelineConfig with
    | none => false
    | some rc => !rc.keys.isEmpty
  let keyCheck := if cfgPresent then
      validate_pipeline_config (match req.pipelineConfig with
        | none => []
        | some rc => rc.keys)
    else Except.ok ()
  match keyCheck with
  | Except.error m => (Except.error (400, m), st)
  | Except.ok _ =>
  match (st.pipelines.map Prod.snd).filter (fun p => p.videoId = req.videoId) with
  | p :: _ =>
      (Except.ok { videoId := req.videoId
                   pipelineId := p.pipelineId
                   status := p.status
                   message := "Pipeline already exists with status: " ++ statusStr p.status
                   totalSteps := p.totalSteps
                   completedSteps := p.completedSteps
                   createdAt := p.createdAt
                   updatedAt := p.updatedAt }, st)
  | [] =>
      let config := if cfgPresent then
          (match req.pipelineConfig with
           | none => none
           | some rc => some rc.parsed)
        else none
      let pl := create_pipeline pid ids req.videoId req.videoUrl req.prompt config now
      let st2 := insertPipeline st pl
      (Except.ok { videoId := req.videoId
                   pipelineId := pl.pipelineId
                   status := pl.status
                   message := "Pipeline created and started"
                   totalSteps := pl.totalSteps
                   completedSteps := pl.completedSteps
                   createdAt := pl.createdAt
                   updatedAt := none }, st2)

/-- Deterministic uuid supply for the concrete scenarios. -/
def sampleIds : Nat → String := fun n => "step-" ++ toString n

/-- The pipeline `create_pipeline` builds with the default config
(a single runway step), before `start_pipeline`. -/
def createdPipeline : Pipeline :=
  create_pipeline "p" sampleIds "v" "http://v.mp4" "make it pop" none 0

/-- Pipeline `createdPipeline` once `start_pipeline` has set it Processing. -/
def runwayPipeline : Pipeline :=
  { createdPipeline with status := PipelineStatus.processing }

/-- The dict the runway service returns on success in scenario B. -/
def successResult : Dict :=
  [("status", DVal.s "success"), ("video_url", DVal.s "https://x/out.mp4")]

/-- Every service call resolves to `successResult`. -/
def successBeh : Nat → CallOutcome := fun _ => CallOutcome.returns (some successResult)

/-- The dict the runway service returns on a quota failure. -/
def quotaResult : Dict :=
  [("status", DVal.s "failed"), ("error", DVal.s "quota exceeded")]

/-- Every service call resolves to `quotaResult`. -/
def quotaBeh : Nat → CallOutcome := fun _ => CallOutcome.returns (some quotaResult)

/-- A started pipeline with a runway step followed by one custom step. -/
def quotaPipeline : Pipeline :=
  { create_pipeline "p" sampleIds "v" "http://v.mp4" "make it pop"
      (some { enableRunwayVideo := true, customSteps := [[("type", DVal.s "resize")]] }) 0
    with status := PipelineStatus.processing }

/-- A manager holding one already-Completed pipeline under id "p". -/
def doneState : ManagerState :=
  { pipelines := [("p", { runwayPipeline with status := PipelineStatus.completed })],
    running := [] }

/-- A started pipeline whose record holds an ffmpeg step followed by a
custom step (built directly: it exercises the placeholder executors). -/
def skipPipeline : Pipeline :=
  { pipelineId := "p", videoId := "v", videoUrl := "http://v.mp4",
    prompt := "make it pop", status := PipelineStatus.processing,
    steps := [newStep "f0" StepType.ffmpeg_process 0 [],
              newStep "c1" StepType.custom_process 1 []],
    createdAt := 0, updatedAt := none, completedAt := none,
    totalSteps := 2, completedSteps := 0 }

/-- The statuses stored in a manager state returned by `start_pipeline`
(empty when the call errored). -/
def startedStatuses (r : Except String ManagerState) : List PipelineStatus :=
  match r with
  | Except.ok st2 => st2.pipelines.map (fun q => q.2.status)
  | Except.error _ => []

/-- The one-Pending-pipeline manager state before `start_pipeline`. -/
def pendingState : ManagerState :=
  { pipelines := [("p", createdPipeline)], running := [] }

/-- The manager state `start_pipeline pendingState "p" 3` returns. -/
def startedState : ManagerState :=
  { pipelines := updatePipeline pendingState.pipelines "p"
      { createdPipeline with status := PipelineStatus.processing, updatedAt := some 3 },
    running := ["p"] }

/-- The step count the claim predicts: one per enabled flag. -/
def specEnabledFlagCount (c : PipelineConfig) : Nat :=
  (if c.enableRunwayVideo then 1 else 0) + (if c.enableFfmpeg then 1 else 0)
    + (if c.enableWhisper then 1 else 0) + (if c.enableGpt4 then 1 else 0)

/-- The config of spec scenario D: a runway step plus one custom step. -/
def resizeConfig : PipelineConfig :=
  { enableRunwayVideo := true, customSteps := [[("type", DVal.s "resize")]] }

/-- A freshly created pipeline as the execution task first sees it, after
`start_pipeline` set it Processing. -/
def startedPipeline (pid : String) (ids : Nat → String) (v u pr : String)
    (config0 : Option PipelineConfig) (now : Nat) : Pipeline :=
  { create_pipeline pid ids v u pr config0 now with status := PipelineStatus.processing }

/-- The HTTP outcome is an error with status code 400 — how the endpoint
surfaces a ValidationException to the caller. -/
def isError400 (r : Except (Nat × String) VideoResponse) : Bool :=
  match r with
  | Except.error e => e.1 = 400
  | Except.ok _ => false

/-- The empty manager state. -/
def emptyState : ManagerState := { pipelines := [], running := [] }

/-- A request whose prompt is whitespace-only. -/
def blankPromptReq : VideoRequest :=
  { videoId := "v", videoUrl := "http://a.mp4", prompt := "   ", pipelineConfig := none }

/-- C1 (code_bug): terminal pipeline statuses ARE overwritten by the code.
`cancel_pipeline` on an already-Completed pipeline reports success and
rewrites the status to Cancelled, and the end-of-loop completion branch of
`_execute_pipeline` (which only spares Failed) rewrites a pipeline whose
status is Cancelled at the step boundary to Completed. -/
theorem C1_terminal_status_overwritten :
    (cancel_pipeline doneState "p" 5).1 = true
    ∧ ((cancel_pipeline doneState "p" 5).2.pipelines.map (fun q => q.2.status))
        = [PipelineStatus.cancelled]
    ∧ (execute_pipeline successBeh (some 0) runwayPipeline 1).pipeline.status
        = PipelineStatus.completed
    ∧ ((execute_pipeline successBeh (some 0) runwayPipeline 1).pipeline.steps.map
        PipelineStep.status) = [StepStatus.pending] :=
  ⟨rfl, rfl, rfl, rfl⟩

/-- C4 counterexample: with the runway call resolving to a failure whose
error is "quota exceeded", the failed step's recorded error is the wrapped
string "Runway service failed: quota exceeded", not "quota exceeded". -/
theorem C4_error_not_verbatim :
    ((execute_pipeline quotaBeh none quotaPipeline 1).pipeline.steps.map
        PipelineStep.error).head?
      = some (some "Runway service failed: quota exceeded")
    ∧ ("Runway service failed: quota exceeded" = "quota exceeded") = False :=
  ⟨rfl, by simp⟩

/-- C4 as amended: on a "quota exceeded" failure of the runway call,
steps[0] ends Failed with error "Runway service failed: quota exceeded"
(the ServiceException text re-recorded by the except handler), the
pipeline ends Failed, completedSteps stays 0, and the following step stays
Pending (the escaping exception stops the loop). -/
theorem C4_quota_failure_run :
    ((execute_pipeline quotaBeh none quotaPipeline 1).pipeline.steps.map
        PipelineStep.status) = [StepStatus.failed, StepStatus.pending]
    ∧ ((execute_pipeline quotaBeh none quotaPipeline 1).pipeline.steps.map
        PipelineStep.error)
        = [some "Runway service failed: quota exceeded", none]
    ∧ (execute_pipeline quotaBeh none quotaPipeline 1).pipeline.status
        = PipelineStatus.failed
    ∧ (execute_pipeline quotaBeh none quotaPipeline 1).pipeline.completedSteps = 0
    ∧ (execute_pipeline quotaBeh none quotaPipeline 1).exc
        = ExcKind.exc
            "Pipeline p failed: Step step-0 failed: Runway service failed: quota exceeded" :=
  ⟨rfl, rfl, rfl, rfl, rfl⟩

/-- C5 counterexample: a skipped placeholder step keeps the progress value
10 written at step start; the `finally` block only promotes steps still
Processing to progress 100, so the claimed `progress = 100` is false. -/
theorem C5_skip_progress_not_100 :
    (execute_step (newStep "f0" StepType.ffmpeg_process 0 [])
        (CallOutcome.returns none) 1).1.progress = 10
    ∧ ((10 : Nat) = 100) = False :=
  ⟨rfl, by simp⟩

/-- C5 as amended: the skipped step is marked Skipped with the reason
"FFmpeg service is currently disabled" in its error field and its progress
left at 10; execution continues to the next step, the pipeline completes
instead of failing, and the skip is not counted in completedSteps. -/
theorem C5_skip_continues_run :
    ((execute_pipeline (fun _ => CallOutcome.returns none) none skipPipeline 1).pipeline.steps.map
        PipelineStep.status) = [StepStatus.skipped, StepStatus.completed]
    ∧ ((execute_pipeline (fun _ => CallOutcome.returns none) none skipPipeline 1).pipeline.steps.map
        PipelineStep.error) = [some "FFmpeg service is currently disabled", none]
    ∧ ((execute_pipeline (fun _ => CallOutcome.returns none) none skipPipeline 1).pipeline.steps.map
        PipelineStep.progress) = [10, 100]
    ∧ (execute_pipeline (fun _ => CallOutcome.returns none) none skipPipeline 1).pipeline.status
        = PipelineStatus.completed
    ∧ (execute_pipeline (fun _ => CallOutcome.returns none) none skipPipeline 1).pipeline.completedSteps
        = 1 :=
  ⟨rfl, rfl, rfl, rfl, rfl⟩

/-- C7: scenario B.  On a started single-runway-step pipeline whose service
call returns a success dict carrying video_url "https://x/out.mp4", the run
ends Completed with completedSteps 1; the step ends Completed with
progress 100 and its output dict maps video_url to that url. -/
theorem C7_success_run :
    (execute_pipeline successBeh none runwayPipeline 1).pipeline.status
        = PipelineStatus.completed
    ∧ (execute_pipeline successBeh none runwayPipeline 1).pipeline.completedSteps = 1
    ∧ ((execute_pipeline successBeh none runwayPipeline 1).pipeline.steps.map
        PipelineStep.status) = [StepStatus.completed]
    ∧ ((execute_pipeline successBeh none runwayPipeline 1).pipeline.steps.map
        PipelineStep.progress) = [100]
    ∧ (((execute_pipeline successBeh none runwayPipeline 1).pipeline.steps.map
        PipelineStep.output).map (fun o => o.map (fun d => Dict.get d "video_url")))
        = [some (some (DVal.s "https://x/out.mp4"))] :=
  ⟨rfl, rfl, rfl, rfl, rfl⟩

/-- C10: when the in-flight runway call of a started single-step pipeline
is aborted by task cancellation (a BaseException the except-Exception
handlers never see), the `finally` cleanup still stamps `completedAt` and
promotes the still-Processing step to Completed with progress 100 and no
output, while the loop aborts without incrementing completedSteps and the
pipeline record keeps its pre-abort status. -/
theorem C10_interrupted_step_marked_completed :
    ((execute_pipeline (fun _ => CallOutcome.interrupted) none runwayPipeline 1).pipeline.steps.map
        PipelineStep.status) = [StepStatus.completed]
    ∧ ((execute_pipeline (fun _ => CallOutcome.interrupted) none runwayPipeline 1).pipeline.steps.map
        PipelineStep.progress) = [100]
    ∧ ((execute_pipeline (fun _ => CallOutcome.interrupted) none runwayPipeline 1).pipeline.steps.map
        PipelineStep.output) = [none]
    ∧ ((execute_pipeline (fun _ => CallOutcome.interrupted) none runwayPipeline 1).pipeline.steps.map
        PipelineStep.completedAt) = [some 1]
    ∧ (execute_pipeline (fun _ => CallOutcome.interrupted) none runwayPipeline 1).pipeline.completedSteps
        = 0
    ∧ (execute_pipeline (fun _ => CallOutcome.interrupted) none runwayPipeline 1).pipeline.status
        = PipelineStatus.processing
    ∧ (execute_pipeline (fun _ => CallOutcome.interrupted) none runwayPipeline 1).exc
        = ExcKind.baseExc :=
  ⟨rfl, rfl, rfl, rfl, rfl, rfl, rfl⟩

/-- C2 counterexample: `start_pipeline` on a pipeline whose status is
Completed (not Pending) does not fail — it succeeds and rewrites the
status to Processing, because the source never checks the status. -/
theorem C2_start_not_guarded :
    (start_pipeline doneState "p" 7).isOk = true
    ∧ startedStatuses (start_pipeline doneState "p" 7) = [PipelineStatus.processing] :=
  ⟨rfl, rfl⟩

/-- Reading `lookupPipeline` after an in-place `updatePipeline` of a present key. -/
theorem lookupPipeline_updatePipeline (pid : String) (p2 : Pipeline) :
    ∀ (ps : List (String × Pipeline)) (p : Pipeline),
      lookupPipeline ps pid = some p →
      lookupPipeline (updatePipeline ps pid p2) pid = some p2 := by
  intro ps
  induction ps with
  | nil => intro p hp; simp [lookupPipeline] at hp
  | cons kv rest ih =>
      intro p hp
      by_cases hk : kv.1 = pid
      · simp [updatePipeline, lookupPipeline, hk]
      · simp only [lookupPipeline, updatePipeline, if_neg hk] at hp ⊢
        exact ih p hp

/-- C2 as amended: `start_pipeline` only requires that the pipeline exist.
On a missing id it raises PipelineException "Pipeline (id) not found"; on
any existing pipeline — whatever its current status — it succeeds,
rewrites the status to Processing, stamps `updatedAt`, and registers the
execution task. -/
theorem C2_start_amended (st : ManagerState) (pid : String) (now : Nat) :
    (lookupPipeline st.pipelines pid = none →
       start_pipeline st pid now = Except.error ("Pipeline " ++ pid ++ " not found"))
    ∧ (∀ p, lookupPipeline st.pipelines pid = some p →
       ∀ st2, start_pipeline st pid now = Except.ok st2 →
         lookupPipeline st2.pipelines pid
             = some { p with status := PipelineStatus.processing, updatedAt := some now }
           ∧ st2.running = pid :: st.running) := by
  constructor
  · intro h
    simp [start_pipeline, h]
  · intro p hp st2 hok
    simp only [start_pipeline, hp] at hok
    cases hok
    exact ⟨lookupPipeline_updatePipeline pid _ st.pipelines p hp, rfl⟩

/-- Witness for C2_start_amended: both branches at concrete inputs. -/
theorem C2_start_amended_witness :
    start_pipeline { pipelines := [], running := [] } "p" 3
        = Except.error ("Pipeline " ++ "p" ++ " not found")
    ∧ (lookupPipeline startedState.pipelines "p"
        = some { createdPipeline with status := PipelineStatus.processing, updatedAt := some 3 }
       ∧ startedState.running = "p" :: pendingState.running) :=
  ⟨(C2_start_amended { pipelines := [], running := [] } "p" 3).1 rfl,
   (C2_start_amended pendingState "p" 3).2 createdPipeline rfl startedState rfl⟩

/-- C3 counterexample: with enableRunwayVideo and enableFfmpeg both true
and no custom steps, the claim predicts totalSteps = 2, but the created
pipeline has totalSteps = 1 (create_pipeline forces enableFfmpeg off). -/
theorem C3_counterexample :
    (create_pipeline "p" sampleIds "v" "http://v.mp4" "make it pop"
        (some { enableRunwayVideo := true, enableFfmpeg := true }) 0).totalSteps = 1
    ∧ specEnabledFlagCount { enableRunwayVideo := true, enableFfmpeg := true }
        + ({ enableRunwayVideo := true, enableFfmpeg := true } : PipelineConfig).customSteps.length
        = 2
    ∧ ((1 : Nat) = 2) = False :=
  ⟨rfl, rfl, by simp⟩

/-- The custom-steps loop appends one step per entry. -/
theorem customStepsFrom_length (ids : Nat → String) :
    ∀ (l : List Dict) (ord : Nat), (customStepsFrom ids ord l).length = l.length := by
  intro l
  induction l with
  | nil => intro ord; rfl
  | cons a rest ih => intro ord; simp [customStepsFrom, ih]

/-- Every step the custom-steps loop appends has type custom_process. -/
theorem customStepsFrom_map_type (ids : Nat → String) :
    ∀ (l : List Dict) (ord : Nat),
      (customStepsFrom ids ord l).map PipelineStep.stepType
        = l.map (fun _ => StepType.custom_process) := by
  intro l
  induction l with
  | nil => intro ord; rfl
  | cons a rest ih => intro ord; simp [customStepsFrom, ih, newStep]

/-- The custom-steps loop numbers its steps consecutively from `ord`. -/
theorem customStepsFrom_map_order (ids : Nat → String) :
    ∀ (l : List Dict) (ord : Nat),
      (customStepsFrom ids ord l).map PipelineStep.order
        = (List.range l.length).map (fun i => ord + i) := by
  intro l
  induction l with
  | nil => intro ord; rfl
  | cons a rest ih =>
      intro ord
      simp only [customStepsFrom, List.map_cons, ih, newStep, List.length_cons,
        List.range_succ_eq_map, List.map_map, List.cons.injEq]
      exact ⟨by omega, List.map_congr_left (fun a ha => by simp [Function.comp]; omega)⟩

/-- Unfolding `_create_steps` on a config whose ffmpeg/whisper/gpt4 flags are forced
off (as `create_pipeline` always does). -/
theorem create_steps_forced (ids : Nat → String) (c : PipelineConfig) :
    create_steps ids (forcedConfig c)
      = (if c.enableRunwayVideo then [newStep (ids 0) StepType.runway_video 0 []] else [])
        ++ customStepsFrom ids (if c.enableRunwayVideo then 1 else 0) c.customSteps := by
  cases h : c.enableRunwayVideo <;> simp [create_steps, forcedConfig, h]

/-- The orders of a created pipeline's steps are 0, 1, 2, ... -/
theorem create_steps_forced_orders (ids : Nat → String) (c : PipelineConfig) :
    (create_steps ids (forcedConfig c)).map PipelineStep.order
      = List.range (create_steps ids (forcedConfig c)).length := by
  rw [create_steps_forced]
  cases h : c.enableRunwayVideo
  · simp [customStepsFrom_map_order, customStepsFrom_length]
  · simp [customStepsFrom_map_order, customStepsFrom_length, newStep,
      List.range_succ_eq_map, List.map_map, List.cons.injEq]
    exact fun a ha => by omega

/-- Each step of a created pipeline carries its own index as `order`. -/
theorem create_steps_forced_get_order (ids : Nat → String) (c : PipelineConfig) :
    ∀ i, ∀ h : i < (create_steps ids (forcedConfig c)).length,
      ((create_steps ids (forcedConfig c)).get ⟨i, h⟩).order = i := by
  intro i h
  have horders := create_steps_forced_orders ids c
  have h2 : i < ((create_steps ids (forcedConfig c)).map PipelineStep.order).length := by
    simpa using h
  have key := List.get_of_eq horders ⟨i, h2⟩
  simp [List.get_eq_getElem, List.getElem_map, List.getElem_range] at key
  simpa [List.get_eq_getElem, List.getElem_map] using key

/-- C3 as amended: for every create call, totalSteps equals
(1 if enableRunwayVideo else 0) + len(customSteps) — the other three flags
are forced off by create_pipeline before the step list is built — the
steps are the runway step (when enabled) followed by the custom steps, and
steps[i].order = i for every index. -/
theorem C3_create_amended (pid : String) (ids : Nat → String) (v u pr : String)
    (config0 : Option PipelineConfig) (now : Nat) :
    (create_pipeline pid ids v u pr config0 now).totalSteps
        = (if (baseConfig config0).enableRunwayVideo then 1 else 0)
          + (baseConfig config0).customSteps.length
    ∧ (create_pipeline pid ids v u pr config0 now).steps.map PipelineStep.stepType
        = (if (baseConfig config0).enableRunwayVideo then [StepType.runway_video] else [])
          ++ (baseConfig config0).customSteps.map (fun _ => StepType.custom_process)
    ∧ ∀ i, ∀ h : i < (create_pipeline pid ids v u pr config0 now).steps.length,
        ((create_pipeline pid ids v u pr config0 now).steps.get ⟨i, h⟩).order = i := by
  refine ⟨?_, ?_, ?_⟩
  · show (create_steps ids (forcedConfig (baseConfig config0))).length = _
    rw [create_steps_forced]
    cases h : (baseConfig config0).enableRunwayVideo <;>
      simp [customStepsFrom_length] <;> omega
  · show (create_steps ids (forcedConfig (baseConfig config0))).map PipelineStep.stepType = _
    rw [create_steps_forced]
    cases h : (baseConfig config0).enableRunwayVideo <;>
      simp [customStepsFrom_map_type, newStep]
  · exact create_steps_forced_get_order ids (baseConfig config0)

/-- Witness for C3_create_amended at scenario D's config and index 1. -/
theorem C3_create_amended_witness :
    1 < (create_pipeline "p" sampleIds "v" "http://v.mp4" "make it pop"
        (some resizeConfig) 0).steps.length
    ∧ ((create_pipeline "p" sampleIds "v" "http://v.mp4" "make it pop"
        (some resizeConfig) 0).steps.get ⟨1, by decide⟩).order = 1 :=
  ⟨by decide,
   (C3_create_amended "p" sampleIds "v" "http://v.mp4" "make it pop"
      (some resizeConfig) 0).2.2 1 (by decide)⟩

/-- C9: create_pipeline forces enableFfmpeg/enableWhisper/enableGpt4 off,
so for every configuration the created steps are exactly the runway step
(when enableRunwayVideo) followed by the custom steps — a media-process,
transcribe, or content-analyze step can never appear. -/
theorem C9_forced_flags_only_runway_and_custom (pid : String) (ids : Nat → String)
    (v u pr : String) (config0 : Option PipelineConfig) (now : Nat) :
    (create_pipeline pid ids v u pr config0 now).steps.map PipelineStep.stepType
        = (if (baseConfig config0).enableRunwayVideo then [StepType.runway_video] else [])
          ++ (baseConfig config0).customSteps.map (fun _ => StepType.custom_process)
    ∧ ((create_pipeline pid ids v u pr config0 now).steps.map PipelineStep.stepType).any
        (fun t => decide (t = StepType.ffmpeg_process ∨ t = StepType.whisper_transcribe
          ∨ t = StepType.gpt4_analysis)) = false := by
  have hm : (create_pipeline pid ids v u pr config0 now).steps.map PipelineStep.stepType
      = (if (baseConfig config0).enableRunwayVideo then [StepType.runway_video] else [])
        ++ (baseConfig config0).customSteps.map (fun _ => StepType.custom_process) := by
    show (create_steps ids (forcedConfig (baseConfig config0))).map PipelineStep.stepType = _
    rw [create_steps_forced]
    cases h : (baseConfig config0).enableRunwayVideo <;>
      simp [customStepsFrom_map_type, newStep]
  refine ⟨hm, ?_⟩
  rw [hm]
  cases h : (baseConfig config0).enableRunwayVideo <;>
    simp [List.any_append, List.any_map, Function.comp]

/-- The step loop only ever increments the completed-steps counter, at
most once per executed step, and rebuilds a step list of the same length. -/
theorem runSteps_bounds (beh : Nat → CallOutcome) (cancelAt : Option Nat) (now : Nat) :
    ∀ (l : List PipelineStep) (i : Nat) (st : PipelineStatus) (comp : Nat),
      comp ≤ (runSteps beh cancelAt now i st comp l).comp
      ∧ (runSteps beh cancelAt now i st comp l).comp ≤ comp + l.length
      ∧ (runSteps beh cancelAt now i st comp l).steps.length = l.length := by
  intro l
  induction l with
  | nil => intro i st comp; simp [runSteps]
  | cons step rest ih =>
      intro i st comp
      simp only [runSteps]
      repeat' split
      all_goals first
      | (simp_all; done)
      | (refine ⟨le_refl _, ?_, ?_⟩ <;> simp <;> omega)
      | (obtain ⟨a1, a2, a3⟩ := ih (i + 1) st (comp + 1)
         refine ⟨?_, ?_, ?_⟩ <;> simp [a3] <;> omega)
      | (obtain ⟨a1, a2, a3⟩ := ih (i + 1) st comp
         refine ⟨?_, ?_, ?_⟩ <;> simp [a3] <;> omega)

/-- What `_execute_pipeline` leaves in the record, in terms of the loop
result: the total-step count is untouched, and the completed-step count
and step list are the ones the loop produced. -/
theorem execute_pipeline_fields (beh : Nat → CallOutcome) (cancelAt : Option Nat)
    (pl : Pipeline) (now : Nat) :
    (execute_pipeline beh cancelAt pl now).pipeline.totalSteps = pl.totalSteps
    ∧ (execute_pipeline beh cancelAt pl now).pipeline.completedSteps
        = (runSteps beh cancelAt now 0 pl.status pl.completedSteps pl.steps).comp
    ∧ (execute_pipeline beh cancelAt pl now).pipeline.steps
        = (runSteps beh cancelAt now 0 pl.status pl.completedSteps pl.steps).steps := by
  simp only [execute_pipeline]
  split <;> first
  | (refine ⟨?_, ?_, ?_⟩ <;> split <;> simp)
  | (refine ⟨?_, ?_, ?_⟩ <;> simp)

/-- C6: for every created-and-started pipeline and every behaviour of the
step executors (including boundary cancellations and interruptions), the
run leaves totalSteps unchanged, never decreases completedSteps, and keeps
completedSteps at most totalSteps (which stays the length of the step
list). -/
theorem C6_completed_steps_bound (pid : String) (ids : Nat → String) (v u pr : String)
    (config0 : Option PipelineConfig) (cnow : Nat)
    (beh : Nat → CallOutcome) (cancelAt : Option Nat) (now : Nat) :
    (execute_pipeline beh cancelAt (startedPipeline pid ids v u pr config0 cnow)
        now).pipeline.totalSteps
      = (create_pipeline pid ids v u pr config0 cnow).totalSteps
    ∧ (create_pipeline pid ids v u pr config0 cnow).completedSteps
        ≤ (execute_pipeline beh cancelAt (startedPipeline pid ids v u pr config0 cnow)
            now).pipeline.completedSteps
    ∧ (execute_pipeline beh cancelAt (startedPipeline pid ids v u pr config0 cnow)
          now).pipeline.completedSteps
        ≤ (execute_pipeline beh cancelAt (startedPipeline pid ids v u pr config0 cnow)
            now).pipeline.totalSteps
    ∧ (execute_pipeline beh cancelAt (startedPipeline pid ids v u pr config0 cnow)
          now).pipeline.steps.length
        = (execute_pipeline beh cancelAt (startedPipeline pid ids v u pr config0 cnow)
            now).pipeline.totalSteps := by
  obtain ⟨hf1, hf2, hf3⟩ := execute_pipeline_fields beh cancelAt
    (startedPipeline pid ids v u pr config0 cnow) now
  obtain ⟨hb1, hb2, hb3⟩ := runSteps_bounds beh cancelAt now
    (startedPipeline pid ids v u pr config0 cnow).steps 0
    (startedPipeline pid ids v u pr config0 cnow).status
    (startedPipeline pid ids v u pr config0 cnow).completedSteps
  have e0 : (startedPipeline pid ids v u pr config0 cnow).completedSteps = 0 := rfl
  have e1 : (startedPipeline pid ids v u pr config0 cnow).steps.length
      = (startedPipeline pid ids v u pr config0 cnow).totalSteps := rfl
  refine ⟨hf1, ?_, ?_, ?_⟩
  · rw [hf2]
    exact hb1
  · rw [hf2, hf1]
    omega
  · rw [hf3, hf1]
    omega

/-- C8: a transform request whose prompt is blank or longer than 1000
characters is answered with a 400 ValidationException error, and the
manager state is returned untouched — no pipeline is created or
inserted. -/
theorem C8_validation_guard (uuidOk : String → Bool) (req : VideoRequest)
    (st : ManagerState) (pid : String) (ids : Nat → String) (now : Nat)
    (h : promptBlank req.prompt = true ∨ 1000 < req.prompt.length) :
    isError400 (transform_video uuidOk req st pid ids now).1 = true
    ∧ (transform_video uuidOk req st pid ids now).2 = st := by
  simp only [transform_video]
  split
  · simp [isError400]
  · split
    · simp [isError400]
    · split
      · simp [isError400]
      · rename_i a heq
        rcases h with hh | hh
        · simp [validate_prompt, hh] at heq
        · simp only [validate_prompt] at heq
          repeat' split at heq
          all_goals first
          | simp at heq
          | omega

/-- Witness for C8_validation_guard at a whitespace-only prompt. -/
theorem C8_validation_guard_witness :
    isError400 (transform_video (fun _ => true) blankPromptReq emptyState "p" sampleIds 0).1
        = true
    ∧ (transform_video (fun _ => true) blankPromptReq emptyState "p" sampleIds 0).2
        = emptyState :=
  C8_validation_guard (fun _ => true) blankPromptReq emptyState "p" sampleIds 0 (Or.inl rfl)
